import Mathlib

/-
Verification of the mitfahrzentrale service core (src/src/main.rs).

The service is an axum HTTP application with three relevant pure/stateful
cores, embedded shallowly below:
  * the Session Table: an in-memory map from token to last-activity instant
    (`AppState.sessions`), mutated by `login_with_token` (begin) and
    `require_logged_in_and_touch` (touch / expire);
  * the Auth Gate: `read_bearer_token` header parsing plus the session check;
  * the Validation Engine: `validate_entry_payload`, a pure rule chain.

Modelling conventions:
  * `Instant` is a natural number of seconds; `last.elapsed()` at time `now`
    is `now - last` (truncated subtraction; real `Instant`s are monotone so
    the current time is never below a stored timestamp).
  * The session `HashMap<String, Instant>` is modelled extensionally as a
    function `Token → Option Instant`; `HashMap::insert` and `remove`
    become pointwise updates.
  * Database access (sqlx queries against Postgres) is an external
    collaborator: each query is a parameter of function type returning
    `Except String α` (`.error e` models `Err(sqlx::Error)` with message
    `e`, as surfaced through `e.to_string()`).
  * HTTP error responses `(StatusCode, String)` become `HttpError := Nat × String`
    with the literal status codes (401, 400, 500) and the literal message
    strings from the source.
  * Rust `str::to_lowercase` and `str::trim` are modelled by `strToLower`
    and `strTrim` below; these agree with Rust on the ASCII range, which
    covers every string the specification and the rule chain use.
  * `create_entry` additionally returns the list of external effects it
    performed, in order (`Event`), so that statements about the position of
    the session check relative to database queries can be made; the
    `.unwrap()` on `get_user_by_token` means a failed user lookup panics,
    modelled as the `none` outcome.
-/

abbrev Token := String

/-- Time instant, in whole seconds. -/
abbrev Instant := Nat

/-- An HTTP error response `(StatusCode, String)`. -/
abbrev HttpError := Nat × String

deriving instance DecidableEq for Except

/-- The session table: token → last activity (`HashMap<String, Instant>`). -/
def Sessions := Token → Option Instant

/-- `HashMap::insert(token, v)`, extensionally. -/
def Sessions.insert (s : Sessions) (t : Token) (v : Instant) : Sessions :=
  fun u => if u = t then some v else s u

/-- `HashMap::remove(token)`, extensionally. -/
def Sessions.remove (s : Sessions) (t : Token) : Sessions :=
  fun u => if u = t then none else s u

/-- The empty session table (service start). -/
def emptySessions : Sessions := fun _ => none

/-- Request body of POST /entries (struct `NewEntry`). -/
structure NewEntry where
  titel : String
  nachricht : String
  typ : String
  sitzplaetze : Int
  deriving DecidableEq

/-- A row of the `schueler` relation (struct `User`). -/
structure User where
  id : Int
  nachname : String
  email : String
  status : String
  token : String
  deriving DecidableEq

/-- A row of the `eintrag` relation (struct `Entry`). -/
structure Entry where
  id : Int
  titel : String
  nachricht : String
  typ : String
  sitzplaetze : Int
  deriving DecidableEq

-- ---------- string helpers (Rust `str::starts_with` / `str::contains`) ----------

/-- Rust `str::to_lowercase`, modelled as character-wise `Char.toLower`
(the two agree on the ASCII range, which covers the banned substrings and
every string the specification uses). -/
def strToLower (s : String) : String :=
  String.mk (s.data.map Char.toLower)

/-- Rust `str::trim`: remove leading and trailing whitespace. -/
def strTrim (s : String) : String :=
  String.mk (((s.data.dropWhile Char.isWhitespace).reverse.dropWhile
    Char.isWhitespace).reverse)

/-- `pat` begins the character list `s` (Rust `str::starts_with`). -/
def listStartsWith : List Char → List Char → Bool
  | [], _ => true
  | _ :: _, [] => false
  | p :: ps, c :: cs => p = c && listStartsWith ps cs

/-- `pat` occurs as a contiguous sublist of `s` (Rust `str::contains`). -/
def listContainsSub (pat : List Char) : List Char → Bool
  | [] => listStartsWith pat []
  | c :: rest => listStartsWith pat (c :: rest) || listContainsSub pat rest

/-- `s.contains(pat)` for strings. -/
def strContains (s pat : String) : Bool :=
  listContainsSub pat.data s.data

/-- `auth.strip_prefix("Bearer ")` at the character level. -/
def dropBearerChars : List Char → Option (List Char)
  | 'B' :: 'e' :: 'a' :: 'r' :: 'e' :: 'r' :: ' ' :: rest => some rest
  | _ => none

/-- `auth.strip_prefix("Bearer ")` for strings. -/
def stripBearer (a : String) : Option String :=
  match dropBearerChars a.data with
  | some rest => some (String.mk rest)
  | none => none

-- ---------- AUTH HELPERS ----------

def missingAuthError : HttpError := (401, "Missing Authorization header")
def malformedAuthError : HttpError := (401, "Expected: Bearer <token>")
def emptyTokenError : HttpError := (401, "Empty token")

/-- `read_bearer_token(headers)`: the `Authorization` header value is given as
`none` when absent (or not visible-ASCII, which `to_str().ok()` collapses into
the same branch), otherwise `some` of its string value. -/
def read_bearer_token (hdr : Option String) : Except HttpError Token :=
  match hdr with
  | none => .error missingAuthError
  | some auth =>
    match stripBearer auth with
    | none => .error malformedAuthError
    | some rest =>
      let token := strTrim rest
      if token = "" then .error emptyTokenError
      else .ok token

/-- `Duration::from_secs(10 * 60)`, in seconds. -/
def idle_limit : Nat := 10 * 60

def notLoggedInError : HttpError :=
  (401, "Not logged in. Call POST /login/{token}")
def sessionExpiredError : HttpError :=
  (401, "Session expired (idle > 10 min). Call POST /login/{token} again.")

/-- `require_logged_in_and_touch(state, token)` at current time `now`:
looks up the token in the session table; absent → 401 "Not logged in";
idle for strictly more than `idle_limit` → remove and 401 "Session expired";
otherwise overwrite the activity timestamp (touch) and succeed.
Returns the result together with the session table after the call. -/
def require_logged_in_and_touch (s : Sessions) (token : Token) (now : Instant) :
    Except HttpError Unit × Sessions :=
  match s token with
  | none => (.error notLoggedInError, s)
  | some last =>
    if now - last > idle_limit then
      (.error sessionExpiredError, Sessions.remove s token)
    else
      (.ok (), Sessions.insert s token now)

-- ---------- LOGIN ENDPOINT ----------

def invalidTokenError : HttpError := (401, "Invalid token")

/-- `login_with_token(token, state)`. The credential-store query
`token_exists` is the parameter `ex`: `.error e` is a failed query,
`.ok b` reports whether the token is registered in `schueler`.
A successful result (`.ok ()`) stands for the 200 body `{"ok": true}`.
Returns the result together with the session table after the call. -/
def login_with_token (ex : Token → Except String Bool) (s : Sessions)
    (token : Token) (now : Instant) :
    Except HttpError Unit × Sessions :=
  match ex token with
  | .error e => (.error (500, e), s)
  | .ok false => (.error invalidTokenError, s)
  | .ok true => (.ok (), Sessions.insert s token now)

-- ---------- VALIDATION ENGINE ----------

def contentFilterError : HttpError :=
  (400, "Entry rejected: advertising/selling content")
def capacityError : HttpError :=
  (400, "Typ \x27Angebot\x27 requires sitzplaetze > 0")
def invalidTypError : HttpError :=
  (400, "typ must be \x27Angebot\x27 or \x27Anfrage\x27")
def titelEmptyError : HttpError := (400, "titel must not be empty")
def nachrichtEmptyError : HttpError := (400, "nachricht must not be empty")

/-- The field-presence checks of `validate_entry_payload` (titel first,
then nachricht), reached only after the typ match succeeds. -/
def checkFieldPresence (p : NewEntry) : Except HttpError Unit :=
  if strTrim p.titel = "" then .error titelEmptyError
  else if strTrim p.nachricht = "" then .error nachrichtEmptyError
  else .ok ()

/-- The condition of the content filter, named for reuse in statements:
`let msg = p.nachricht.to_lowercase(); msg.contains("werbung") || msg.contains("verkauf")`. -/
def contentViolation (p : NewEntry) : Bool :=
  let msg := strToLower p.nachricht
  strContains msg "werbung" || strContains msg "verkauf"

/-- `validate_entry_payload(p)`: content filter, then the typ/seat match,
then field presence; each check returns early on violation. -/
def validate_entry_payload (p : NewEntry) : Except HttpError Unit :=
  if contentViolation p then
    .error contentFilterError
  else if p.typ = "Angebot" then
    if p.sitzplaetze ≤ 0 then .error capacityError
    else checkFieldPresence p
  else if p.typ = "Anfrage" then
    checkFieldPresence p
  else
    .error invalidTypError

-- ---------- CREATE ENTRY HANDLER ----------

/-- External effects performed by `create_entry`, in order:
a `schueler` query (`get_user_by_token`, Credential Store), the in-memory
session check, and the `eintrag` INSERT (Entry Repository). -/
inductive Event where
  | credQuery (token : Token)
  | sessionCheck (token : Token)
  | entryInsert
  deriving DecidableEq

/-- `create_entry(headers, state, payload)`. `db` is the `schueler`
point query underlying `get_user_by_token` (`.error` = sqlx failure,
including a missing row); `ins` is the `eintrag` INSERT returning the
persisted row. The `Option` in the result models the `.unwrap()` on
`get_user_by_token`: `none` is a panic. On success the handler returns
`(201, inserted row)`. The second component is the session table after the
call, the third the ordered list of effects performed. -/
def create_entry (db : Token → Except String User)
    (ins : NewEntry → Int → Except String Entry)
    (s : Sessions) (now : Instant) (hdr : Option String) (payload : NewEntry) :
    Option (Except HttpError (Nat × Entry)) × Sessions × List Event :=
  match read_bearer_token hdr with
  | .error e => (some (.error e), s, [])
  | .ok token =>
    match db token with
    | .error _ => (none, s, [Event.credQuery token])
    | .ok user =>
      match require_logged_in_and_touch s token now with
      | (.error e, s1) =>
        (some (.error e), s1, [Event.credQuery token, Event.sessionCheck token])
      | (.ok _, s1) =>
        match validate_entry_payload payload with
        | .error e =>
          (some (.error e), s1, [Event.credQuery token, Event.sessionCheck token])
        | .ok _ =>
          match ins payload user.id with
          | .error e =>
            (some (.error (500, e)), s1,
              [Event.credQuery token, Event.sessionCheck token, Event.entryInsert])
          | .ok entry =>
            (some (.ok (201, entry)), s1,
              [Event.credQuery token, Event.sessionCheck token, Event.entryInsert])

-- ---------- concrete fixtures (used by witnesses and counterexamples) ----------

/-- A registered user, token "t". -/
def user0 : User :=
  { id := 7, nachname := "Muster", email := "muster@example.org",
    status := "aktiv", token := "t" }

/-- A `schueler` point query that knows exactly the token "t". -/
def db0 : Token → Except String User :=
  fun tok => if tok = "t" then .ok user0 else .error "no rows returned"

/-- A `token_exists` query that reports exactly the token "t" as registered. -/
def ex0 : Token → Except String Bool :=
  fun tok => .ok (tok = "t")

/-- A `token_exists` query that always fails (store down). -/
def exF : Token → Except String Bool :=
  fun _ => .error "connection refused"

/-- An `eintrag` INSERT that always succeeds, assigning id 1. -/
def ins0 : NewEntry → Int → Except String Entry :=
  fun p _ =>
    .ok { id := 1, titel := p.titel, nachricht := p.nachricht,
          typ := p.typ, sitzplaetze := p.sitzplaetze }

/-- A payload that passes every validation rule. -/
def payload0 : NewEntry :=
  { titel := "Mitfahrt Berlin", nachricht := "Suche Mitfahrer",
    typ := "Angebot", sitzplaetze := 3 }

-- ---------- helper lemmas about the session check ----------

/-- Session check on an absent token: "Not logged in", table unchanged. -/
theorem touch_not_found (s : Sessions) (t : Token) (now : Instant)
    (h : s t = none) :
    require_logged_in_and_touch s t now = (.error notLoggedInError, s) := by
  unfold require_logged_in_and_touch
  rw [h]

/-- Session check past the idle limit: "Session expired", entry removed. -/
theorem touch_expired (s : Sessions) (t : Token) (now last : Instant)
    (h : s t = some last) (hexp : now - last > idle_limit) :
    require_logged_in_and_touch s t now =
      (.error sessionExpiredError, Sessions.remove s t) := by
  unfold require_logged_in_and_touch
  rw [h]
  simp [hexp]

/-- Session check within the idle limit: success, timestamp refreshed. -/
theorem touch_active (s : Sessions) (t : Token) (now last : Instant)
    (h : s t = some last) (hexp : ¬ now - last > idle_limit) :
    require_logged_in_and_touch s t now = (.ok (), Sessions.insert s t now) := by
  unfold require_logged_in_and_touch
  rw [h]
  simp [hexp]

/-- Reading an inserted entry back at the same token. -/
theorem sessions_insert_self (s : Sessions) (t : Token) (v : Instant) :
    Sessions.insert s t v t = some v := by
  unfold Sessions.insert
  rw [if_pos rfl]

/-- Removal hits the removed token. -/
theorem sessions_remove_self (s : Sessions) (t : Token) :
    Sessions.remove s t t = none := by
  unfold Sessions.remove
  rw [if_pos rfl]

-- ---------- helper lemmas about the validation engine ----------

/-- The typ/seat match succeeds (falls through to the field checks). -/
def seatRuleOk (p : NewEntry) : Prop :=
  p.typ = "Angebot" ∧ 0 < p.sitzplaetze ∨ p.typ = "Anfrage"

/-- A violated content filter is reported first. -/
theorem validate_content (p : NewEntry) (hc : contentViolation p = true) :
    validate_entry_payload p = .error contentFilterError := by
  simp [validate_entry_payload, hc]

/-- An unknown typ is rejected as invalid type (content filter clean). -/
theorem validate_invalid_typ (p : NewEntry) (hc : contentViolation p = false)
    (hA : p.typ ≠ "Angebot") (hQ : p.typ ≠ "Anfrage") :
    validate_entry_payload p = .error invalidTypError := by
  simp [validate_entry_payload, hc, hA, hQ]

/-- An Angebot with non-positive seats is rejected by the capacity rule. -/
theorem validate_capacity (p : NewEntry) (hc : contentViolation p = false)
    (hA : p.typ = "Angebot") (hs : p.sitzplaetze ≤ 0) :
    validate_entry_payload p = .error capacityError := by
  simp [validate_entry_payload, hc, hA, hs]

/-- With filter and typ rule passed, an all-whitespace titel is rejected. -/
theorem validate_titel_empty (p : NewEntry) (hc : contentViolation p = false)
    (hty : seatRuleOk p) (h1 : strTrim p.titel = "") :
    validate_entry_payload p = .error titelEmptyError := by
  have hf : checkFieldPresence p = .error titelEmptyError := by
    unfold checkFieldPresence
    rw [if_pos h1]
  rcases hty with ⟨hA, hpos⟩ | hQ
  · have hs : ¬ p.sitzplaetze ≤ 0 := by omega
    simp [validate_entry_payload, hc, hA, hs, hf]
  · have hA : p.typ ≠ "Angebot" := by rw [hQ]; decide
    simp [validate_entry_payload, hc, hA, hQ, hf]

/-- With filter, typ rule and titel passed, an all-whitespace nachricht is
rejected. -/
theorem validate_nachricht_empty (p : NewEntry) (hc : contentViolation p = false)
    (hty : seatRuleOk p) (h1 : strTrim p.titel ≠ "") (h2 : strTrim p.nachricht = "") :
    validate_entry_payload p = .error nachrichtEmptyError := by
  have hf : checkFieldPresence p = .error nachrichtEmptyError := by
    unfold checkFieldPresence
    rw [if_neg h1, if_pos h2]
  rcases hty with ⟨hA, hpos⟩ | hQ
  · have hs : ¬ p.sitzplaetze ≤ 0 := by omega
    simp [validate_entry_payload, hc, hA, hs, hf]
  · have hA : p.typ ≠ "Angebot" := by rw [hQ]; decide
    simp [validate_entry_payload, hc, hA, hQ, hf]

/-- A payload passing every rule validates. -/
theorem validate_ok (p : NewEntry) (hc : contentViolation p = false)
    (hty : seatRuleOk p) (h1 : strTrim p.titel ≠ "") (h2 : strTrim p.nachricht ≠ "") :
    validate_entry_payload p = .ok () := by
  have hf : checkFieldPresence p = .ok () := by
    unfold checkFieldPresence
    rw [if_neg h1, if_neg h2]
  rcases hty with ⟨hA, hpos⟩ | hQ
  · have hs : ¬ p.sitzplaetze ≤ 0 := by omega
    simp [validate_entry_payload, hc, hA, hs, hf]
  · have hA : p.typ ≠ "Angebot" := by rw [hQ]; decide
    simp [validate_entry_payload, hc, hA, hQ, hf]

/-- The field-presence checks never produce the content-filter error. -/
theorem checkFieldPresence_ne_content (p : NewEntry) :
    checkFieldPresence p ≠ .error contentFilterError := by
  unfold checkFieldPresence
  by_cases h1 : strTrim p.titel = ""
  · rw [if_pos h1]; decide
  · rw [if_neg h1]
    by_cases h2 : strTrim p.nachricht = ""
    · rw [if_pos h2]; decide
    · rw [if_neg h2]; decide

-- ---------- helper lemmas about bearer extraction ----------

/-- Characterization of the `strip_prefix("Bearer ")` character step. -/
theorem dropBearerChars_eq_some (l r : List Char) :
    dropBearerChars l = some r ↔
      l = 'B' :: 'e' :: 'a' :: 'r' :: 'e' :: 'r' :: ' ' :: r := by
  unfold dropBearerChars
  split
  · rename_i rest
    simp
  · rename_i hno
    constructor
    · intro h
      cases h
    · intro h
      exact absurd h (hno r)

/-- Characterization of `strip_prefix("Bearer ")` on strings. -/
theorem stripBearer_eq_some (a r : String) :
    stripBearer a = some r ↔ a = "Bearer " ++ r := by
  obtain ⟨la⟩ := a
  obtain ⟨lr⟩ := r
  have hdata : ("Bearer " ++ String.mk lr).data
      = 'B' :: 'e' :: 'a' :: 'r' :: 'e' :: 'r' :: ' ' :: lr := rfl
  constructor
  · intro h
    unfold stripBearer at h
    cases hd : dropBearerChars la with
    | none => rw [hd] at h; cases h
    | some rest =>
      rw [hd] at h
      have hrl : rest = lr := congrArg String.data (Option.some.inj h)
      apply String.ext
      rw [hdata, (dropBearerChars_eq_some la rest).1 hd, hrl]
  · intro h
    have hla : la = 'B' :: 'e' :: 'a' :: 'r' :: 'e' :: 'r' :: ' ' :: lr := by
      have h2 := congrArg String.data h
      rw [hdata] at h2
      exact h2
    unfold stripBearer
    rw [(dropBearerChars_eq_some la lr).2 hla]

-- ---------- claims ----------

/-- C1 (amended): on a POST /entries request whose bearer token has no entry
in the Session Table but is known to the Credential Store, the handler fails
with Unauthorized "Not logged in" and performs no Entry Repository insert;
the session check runs exactly once and before validation and the insert,
but only after a single Credential Store query (`get_user_by_token`) has
already been issued. -/
theorem C1_create_entry_auth_after_user_lookup
    (db : Token → Except String User) (ins : NewEntry → Int → Except String Entry)
    (s : Sessions) (now : Instant) (hdr : Option String) (payload : NewEntry)
    (token : Token) (user : User)
    (hb : read_bearer_token hdr = .ok token)
    (hdb : db token = .ok user)
    (hs : s token = none) :
    create_entry db ins s now hdr payload =
      (some (.error notLoggedInError), s,
        [Event.credQuery token, Event.sessionCheck token]) := by
  simp only [create_entry, hb, hdb, touch_not_found s token now hs]

/-- C1 witness: the amended statement at a concrete request. -/
theorem C1_witness :
    create_entry db0 ins0 emptySessions 0 (some "Bearer t") payload0 =
      (some (.error notLoggedInError), emptySessions,
        [Event.credQuery "t", Event.sessionCheck "t"]) :=
  C1_create_entry_auth_after_user_lookup db0 ins0 emptySessions 0
    (some "Bearer t") payload0 "t" user0 (by decide) (by decide) rfl

/-- C1 counterexample: on the concrete not-logged-in request the first
recorded effect is the Credential Store query, not the session check, so the
session check is not performed before all other work as the claim states. -/
theorem C1_counterexample :
    (create_entry db0 ins0 emptySessions 0 (some "Bearer t") payload0).2.2 =
      [Event.credQuery "t", Event.sessionCheck "t"] ∧
    (create_entry db0 ins0 emptySessions 0 (some "Bearer t") payload0).2.2.head? ≠
      some (Event.sessionCheck "t") := by
  constructor
  · decide
  · decide

/-- C2: the session check on a token absent from the table fails with
NotFound ("Not logged in") and leaves the table unchanged; on a token whose
last activity is strictly more than the 10-minute idle limit ago it removes
the entry and fails with Expired, so an immediately following check on the
same token fails with NotFound; otherwise it overwrites the last-activity
timestamp with the current time and succeeds. -/
theorem C2_touch_if_active_spec (s : Sessions) (t : Token) (now now2 : Instant) :
    (s t = none →
      require_logged_in_and_touch s t now = (.error notLoggedInError, s)) ∧
    (∀ last, s t = some last → now - last > idle_limit →
      require_logged_in_and_touch s t now =
        (.error sessionExpiredError, Sessions.remove s t) ∧
      require_logged_in_and_touch (Sessions.remove s t) t now2 =
        (.error notLoggedInError, Sessions.remove s t)) ∧
    (∀ last, s t = some last → ¬ now - last > idle_limit →
      require_logged_in_and_touch s t now = (.ok (), Sessions.insert s t now) ∧
      Sessions.insert s t now t = some now) :=
  ⟨fun h => touch_not_found s t now h,
   fun last h hexp =>
     ⟨touch_expired s t now last h hexp,
      touch_not_found _ t now2 (sessions_remove_self s t)⟩,
   fun last h hexp =>
     ⟨touch_active s t now last h hexp, sessions_insert_self s t now⟩⟩

/-- C2 witness: a session begun at time 0 and checked at time 601 expires
and is removed; the immediately following check reports NotFound. -/
theorem C2_witness :
    require_logged_in_and_touch (Sessions.insert emptySessions "t" 0) "t" 601 =
      (.error sessionExpiredError,
        Sessions.remove (Sessions.insert emptySessions "t" 0) "t") ∧
    require_logged_in_and_touch
        (Sessions.remove (Sessions.insert emptySessions "t" 0) "t") "t" 602 =
      (.error notLoggedInError,
        Sessions.remove (Sessions.insert emptySessions "t" 0) "t") :=
  (C2_touch_if_active_spec (Sessions.insert emptySessions "t" 0) "t" 601 602).2.1
    0 (by decide) (by decide)

/-- C3: validation runs content filter, then typ/seat rule, then titel
presence, then nachricht presence, short-circuiting at the first violated
rule and reporting exactly that rule's error; a payload with an unknown typ
is rejected as invalid type without the capacity rule being evaluated. -/
theorem C3_validate_order (p : NewEntry) :
    (contentViolation p = true →
      validate_entry_payload p = .error contentFilterError) ∧
    (contentViolation p = false → p.typ ≠ "Angebot" → p.typ ≠ "Anfrage" →
      validate_entry_payload p = .error invalidTypError) ∧
    (contentViolation p = false → p.typ = "Angebot" → p.sitzplaetze ≤ 0 →
      validate_entry_payload p = .error capacityError) ∧
    (contentViolation p = false → seatRuleOk p → strTrim p.titel = "" →
      validate_entry_payload p = .error titelEmptyError) ∧
    (contentViolation p = false → seatRuleOk p → strTrim p.titel ≠ "" →
      strTrim p.nachricht = "" →
      validate_entry_payload p = .error nachrichtEmptyError) ∧
    (contentViolation p = false → seatRuleOk p → strTrim p.titel ≠ "" →
      strTrim p.nachricht ≠ "" → validate_entry_payload p = .ok ()) :=
  ⟨validate_content p, validate_invalid_typ p, validate_capacity p,
   validate_titel_empty p, validate_nachricht_empty p, validate_ok p⟩

/-- C3 witness: a payload violating the content filter, the typ rule and
titel presence at once yields exactly the content-filter error, the earliest
rule in the order. -/
theorem C3_witness :
    validate_entry_payload
        { titel := "", nachricht := "Grosse Werbung",
          typ := "Sonstiges", sitzplaetze := 0 }
      = .error contentFilterError :=
  (C3_validate_order
    { titel := "", nachricht := "Grosse Werbung",
      typ := "Sonstiges", sitzplaetze := 0 }).1 (by decide)

/-- C4: login surfaces a Credential Store failure as HTTP 500; an
unregistered token fails with Unauthorized "Invalid token" leaving the
Session Table unchanged; a registered token is unconditionally (re)inserted
with the current time as last activity and login succeeds. -/
theorem C4_login_spec (ex : Token → Except String Bool) (s : Sessions)
    (t : Token) (now : Instant) :
    (∀ e, ex t = .error e → login_with_token ex s t now = (.error (500, e), s)) ∧
    (ex t = .ok false →
      login_with_token ex s t now = (.error invalidTokenError, s)) ∧
    (ex t = .ok true →
      login_with_token ex s t now = (.ok (), Sessions.insert s t now)) := by
  refine ⟨fun e h => ?_, fun h => ?_, fun h => ?_⟩ <;>
    · unfold login_with_token
      rw [h]

/-- C4 witness: the three login outcomes at concrete stores and tokens. -/
theorem C4_witness :
    login_with_token exF emptySessions "t" 5 =
      (.error (500, "connection refused"), emptySessions) ∧
    login_with_token ex0 emptySessions "u" 5 =
      (.error invalidTokenError, emptySessions) ∧
    login_with_token ex0 emptySessions "t" 5 =
      (.ok (), Sessions.insert emptySessions "t" 5) :=
  ⟨(C4_login_spec exF emptySessions "t" 5).1 "connection refused" (by decide),
   (C4_login_spec ex0 emptySessions "u" 5).2.1 (by decide),
   (C4_login_spec ex0 emptySessions "t" 5).2.2 (by decide)⟩

/-- C5: with content filter and both field-presence rules satisfied, an
Angebot with non-positive seats is rejected by the capacity rule, an Angebot
with at least one seat is accepted, an Anfrage is accepted for any seat
count, and any other typ is rejected as invalid type. -/
theorem C5_seat_rule (p : NewEntry) (hc : contentViolation p = false)
    (h1 : strTrim p.titel ≠ "") (h2 : strTrim p.nachricht ≠ "") :
    (p.typ = "Angebot" → p.sitzplaetze ≤ 0 →
      validate_entry_payload p = .error capacityError) ∧
    (p.typ = "Angebot" → 1 ≤ p.sitzplaetze → validate_entry_payload p = .ok ()) ∧
    (p.typ = "Anfrage" → validate_entry_payload p = .ok ()) ∧
    (p.typ ≠ "Angebot" → p.typ ≠ "Anfrage" →
      validate_entry_payload p = .error invalidTypError) :=
  ⟨fun hA hs => validate_capacity p hc hA hs,
   fun hA hpos => validate_ok p hc (Or.inl ⟨hA, by omega⟩) h1 h2,
   fun hQ => validate_ok p hc (Or.inr hQ) h1 h2,
   fun hA hQ => validate_invalid_typ p hc hA hQ⟩

/-- C5 witness: the four seat-rule outcomes at concrete payloads whose other
fields are valid. -/
theorem C5_witness :
    validate_entry_payload
        { titel := "A", nachricht := "B", typ := "Angebot", sitzplaetze := 0 }
      = .error capacityError ∧
    validate_entry_payload
        { titel := "A", nachricht := "B", typ := "Angebot", sitzplaetze := 1 }
      = .ok () ∧
    validate_entry_payload
        { titel := "A", nachricht := "B", typ := "Anfrage", sitzplaetze := 0 }
      = .ok () ∧
    validate_entry_payload
        { titel := "A", nachricht := "B", typ := "Sonstiges", sitzplaetze := 0 }
      = .error invalidTypError :=
  ⟨(C5_seat_rule _ (by decide) (by decide) (by decide)).1 rfl (by decide),
   (C5_seat_rule _ (by decide) (by decide) (by decide)).2.1 rfl (by decide),
   (C5_seat_rule _ (by decide) (by decide) (by decide)).2.2.1 rfl,
   (C5_seat_rule _ (by decide) (by decide) (by decide)).2.2.2
     (by decide) (by decide)⟩

/-- C6: a payload whose nachricht, after lower-casing, contains "werbung" or
"verkauf" as a substring is rejected with the content-filter error, whatever
the other fields hold. -/
theorem C6_content_filter_rejects (p : NewEntry)
    (h : strContains (strToLower p.nachricht) "werbung" = true ∨
         strContains (strToLower p.nachricht) "verkauf" = true) :
    validate_entry_payload p = .error contentFilterError := by
  apply validate_content
  unfold contentViolation
  rcases h with h | h <;> simp [h]

/-- C6 witness: a mixed-case "Werbung" in an otherwise fully valid payload
is rejected by the content filter. -/
theorem C6_witness :
    validate_entry_payload
        { titel := "Fahrt", nachricht := "Mit Werbung",
          typ := "Angebot", sitzplaetze := 2 }
      = .error contentFilterError :=
  C6_content_filter_rejects
    { titel := "Fahrt", nachricht := "Mit Werbung",
      typ := "Angebot", sitzplaetze := 2 }
    (Or.inl (by decide))

/-- C7: bearer extraction succeeds, returning the trimmed token portion,
exactly when the Authorization header is present and of the form
"Bearer " followed by a portion that is non-empty after trimming; every
failure carries status 401. -/
theorem C7_bearer_extraction (hdr : Option String) :
    (∀ tk, read_bearer_token hdr = .ok tk →
      ∃ rest, hdr = some ("Bearer " ++ rest) ∧ tk = strTrim rest ∧
        strTrim rest ≠ "") ∧
    (∀ rest, hdr = some ("Bearer " ++ rest) → strTrim rest ≠ "" →
      read_bearer_token hdr = .ok (strTrim rest)) ∧
    (∀ e, read_bearer_token hdr = .error e → e.1 = 401) := by
  refine ⟨?_, ?_, ?_⟩
  · intro tk hok
    cases hdr with
    | none => simp [read_bearer_token] at hok
    | some a =>
      cases hsb : stripBearer a with
      | none => simp [read_bearer_token, hsb] at hok
      | some r =>
        by_cases he : strTrim r = ""
        · simp [read_bearer_token, hsb, he] at hok
        · simp [read_bearer_token, hsb, he] at hok
          exact ⟨r, by rw [(stripBearer_eq_some a r).1 hsb], hok.symm, he⟩
  · intro rest hh hne
    rw [hh]
    simp only [read_bearer_token]
    rw [(stripBearer_eq_some ("Bearer " ++ rest) rest).2 rfl]
    simp [hne]
  · intro e he
    cases hdr with
    | none =>
      simp [read_bearer_token] at he
      subst he
      rfl
    | some a =>
      cases hsb : stripBearer a with
      | none =>
        simp [read_bearer_token, hsb] at he
        subst he
        rfl
      | some r =>
        by_cases h2 : strTrim r = ""
        · simp [read_bearer_token, hsb, h2] at he
          subst he
          rfl
        · simp [read_bearer_token, hsb, h2] at he

/-- C7 witness: a well-formed header extracts its token. -/
theorem C7_witness : read_bearer_token (some "Bearer abc") = .ok "abc" := by
  have h := (C7_bearer_extraction (some "Bearer abc")).2.1 "abc"
    (by decide) (by decide)
  rw [(by decide : strTrim "abc" = "abc")] at h
  exact h

/-- C8: for a token registered in the Credential Store, login inserts a
session and an immediately following session check (within the idle limit)
succeeds. -/
theorem C8_login_then_authorize (ex : Token → Except String Bool) (s : Sessions)
    (t : Token) (now now2 : Instant)
    (hreg : ex t = .ok true) (hgap : now2 - now ≤ idle_limit) :
    login_with_token ex s t now = (.ok (), Sessions.insert s t now) ∧
    require_logged_in_and_touch (Sessions.insert s t now) t now2 =
      (.ok (), Sessions.insert (Sessions.insert s t now) t now2) := by
  constructor
  · unfold login_with_token
    rw [hreg]
  · exact touch_active _ t now2 now (sessions_insert_self s t now)
      (Nat.not_lt.mpr hgap)

/-- C8 witness: login with the registered token "t" followed at once by the
session check succeeds. -/
theorem C8_witness :
    login_with_token ex0 emptySessions "t" 0 =
      (.ok (), Sessions.insert emptySessions "t" 0) ∧
    require_logged_in_and_touch (Sessions.insert emptySessions "t" 0) "t" 0 =
      (.ok (), Sessions.insert (Sessions.insert emptySessions "t" 0) "t" 0) :=
  C8_login_then_authorize ex0 emptySessions "t" 0 0 (by decide) (by decide)

/-- C9: for distinct tokens t and u, both the login insertion for t and the
session check on t (in every branch: success, expiry, not found) leave the
Session Table entry of u unchanged. -/
theorem C9_frame_other_tokens (s : Sessions) (t u : Token) (now : Instant)
    (hne : t ≠ u) :
    Sessions.insert s t now u = s u ∧
    (require_logged_in_and_touch s t now).2 u = s u := by
  have hins : Sessions.insert s t now u = s u := by
    unfold Sessions.insert
    rw [if_neg (Ne.symm hne)]
  have hrem : Sessions.remove s t u = s u := by
    unfold Sessions.remove
    rw [if_neg (Ne.symm hne)]
  refine ⟨hins, ?_⟩
  unfold require_logged_in_and_touch
  cases hst : s t with
  | none => rfl
  | some last =>
    by_cases hexp : now - last > idle_limit
    · simp [hexp, hrem]
    · simp [hexp, hins]

/-- C9 witness: operating on token "t" leaves the session of "u" intact. -/
theorem C9_witness :
    Sessions.insert (Sessions.insert emptySessions "u" 3) "t" 9 "u" = some 3 ∧
    (require_logged_in_and_touch
        (Sessions.insert emptySessions "u" 3) "t" 9).2 "u" = some 3 := by
  have h := C9_frame_other_tokens (Sessions.insert emptySessions "u" 3)
    "t" "u" 9 (by decide)
  exact ⟨h.1.trans (by decide), h.2.trans (by decide)⟩

/-- C10: the content filter inspects only the nachricht field: a payload
whose titel contains a banned word but whose nachricht is clean is never
rejected with the content-filter error, and is accepted when the remaining
rules are satisfied. -/
theorem C10_filter_only_message (p : NewEntry)
    (ht : strContains (strToLower p.titel) "werbung" = true ∨
          strContains (strToLower p.titel) "verkauf" = true)
    (hm1 : strContains (strToLower p.nachricht) "werbung" = false)
    (hm2 : strContains (strToLower p.nachricht) "verkauf" = false) :
    validate_entry_payload p ≠ .error contentFilterError ∧
    (seatRuleOk p → strTrim p.titel ≠ "" → strTrim p.nachricht ≠ "" →
      validate_entry_payload p = .ok ()) := by
  have hc : contentViolation p = false := by
    unfold contentViolation
    simp [hm1, hm2]
  constructor
  · have hval : validate_entry_payload p =
        (if p.typ = "Angebot" then
          if p.sitzplaetze ≤ 0 then .error capacityError
          else checkFieldPresence p
        else if p.typ = "Anfrage" then checkFieldPresence p
        else .error invalidTypError) := by
      simp [validate_entry_payload, hc]
    rw [hval]
    by_cases hA : p.typ = "Angebot"
    · rw [if_pos hA]
      by_cases hs : p.sitzplaetze ≤ 0
      · rw [if_pos hs]
        decide
      · rw [if_neg hs]
        exact checkFieldPresence_ne_content p
    · rw [if_neg hA]
      by_cases hQ : p.typ = "Anfrage"
      · rw [if_pos hQ]
        exact checkFieldPresence_ne_content p
      · rw [if_neg hQ]
        decide
  · exact fun hty h1 h2 => validate_ok p hc hty h1 h2

/-- C10 witness: a titel reading "Werbung" with a clean nachricht passes the
content filter and validates. -/
theorem C10_witness :
    validate_entry_payload
        { titel := "Werbung", nachricht := "Hallo",
          typ := "Anfrage", sitzplaetze := 0 }
      ≠ .error contentFilterError ∧
    validate_entry_payload
        { titel := "Werbung", nachricht := "Hallo",
          typ := "Anfrage", sitzplaetze := 0 }
      = .ok () := by
  have h := C10_filter_only_message
    { titel := "Werbung", nachricht := "Hallo",
      typ := "Anfrage", sitzplaetze := 0 }
    (Or.inl (by decide)) (by decide) (by decide)
  exact ⟨h.1, h.2 (Or.inr rfl) (by decide) (by decide)⟩
